import Mathlib

/-!
Verification of the Google-Drive-API repository's Folder Sync Planner
(download_drive.py, drive_upload_to_folder.py, drive_create_folder.py)
against its natural-language specification.

The Python source is shallowly embedded: pure helpers become Lean
functions, the recursive remote/local tree walks become structural
recursion over explicit tree types, and the effectful entry points
become functions from an explicit environment (remote tree, local
filesystem snapshot, free disk space) to results plus effect logs.
-/

/-- MIME type marking a remote item as a folder (container). -/
def folderMime : String := "application/vnd.google-apps.folder"

/-- Model of os.path.join for the relative paths built by the walkers:
joining with an empty prefix returns the name unchanged. -/
def joinPath (p n : String) : String := if p = "" then n else p ++ "/" ++ n

/-- Python truthiness of an optional string: None and the empty string
are falsy. -/
def truthyOpt : Option String → Bool
  | none => false
  | some s => if s = "" then false else true

/-- Model of the pattern os.path.join(folder_path, name) if folder_path
else None used throughout download_drive.py. -/
def optJoin (lp : Option String) (n : String) : Option String :=
  if truthyOpt lp then (lp.map (fun p => joinPath p n)) else none

/-- Index of the last occurrence of a character in a list, if any. -/
def lastIndexOf (c : Char) : List Char → Option Nat
  | [] => none
  | x :: xs =>
    match lastIndexOf c xs with
    | some i => some (i + 1)
    | none => if x = c then some 0 else none

/-- get_file_extension from download_drive.py: os.path.splitext(name)[1].
CPython semantics: the extension starts at the final dot past the last
path separator, but only if some earlier character of the base name is
not a dot (so leading dots of the base name never begin an extension). -/
def get_file_extension (file_name : String) : String :=
  let cs := file_name.data
  let fstart : Nat :=
    match lastIndexOf '/' cs with
    | none => 0
    | some s => s + 1
  match lastIndexOf '.' cs with
  | none => ""
  | some d =>
    if fstart ≤ d ∧ ((cs.drop fstart).take (d - fstart)).any (fun x => x ≠ '.') then
      String.mk (cs.drop d)
    else ""

/-- The extension exactly as the claim words it: the substring from the
file name's final dot, including the dot; empty string if none. -/
def claimedExtension (file_name : String) : String :=
  match lastIndexOf '.' file_name.data with
  | none => ""
  | some d => String.mk (file_name.data.drop d)

/-- Whether a local file exists at the (optional) destination path,
under the filesystem predicate fs_exists (os.path.exists). -/
def existsAt (fs_exists : String → Bool) : Option String → Bool
  | some p => fs_exists p
  | none => false

/-- should_process_file from download_drive.py.  The local filesystem is
abstracted as the predicate fs_exists (os.path.exists). -/
def should_process_file (mime_type file_extension : String) (file_path : Option String)
    (mime_types file_extensions : List String) (return_object overwrite : Bool)
    (fs_exists : String → Bool) : Bool :=
  if mime_types ≠ [] ∧ mime_type ∉ mime_types then false
  else if file_extensions ≠ [] ∧ file_extension ∉ file_extensions then false
  else if !return_object && !overwrite && truthyOpt file_path
      && existsAt fs_exists file_path then false
  else true

/-- The inclusion decision exactly as claim C1 words it: the same
first-match-wins cascade, with the item's extension computed as the
substring from the name's final dot. -/
def includeDecisionClaimed (mime_type file_name : String) (file_path : Option String)
    (mime_types file_extensions : List String) (return_object overwrite : Bool)
    (fs_exists : String → Bool) : Bool :=
  if mime_types ≠ [] ∧ mime_type ∉ mime_types then false
  else if file_extensions ≠ [] ∧ claimedExtension file_name ∉ file_extensions then false
  else if return_object = false ∧ overwrite = false
      ∧ existsAt fs_exists file_path = true then false
  else true

/-- The inclusion decision as amended: identical to the claimed cascade
except that the extension follows os.path.splitext (a final dot preceded
only by dots within the base name yields no extension). -/
def includeDecisionAmended (mime_type file_name : String) (file_path : Option String)
    (mime_types file_extensions : List String) (return_object overwrite : Bool)
    (fs_exists : String → Bool) : Bool :=
  if mime_types ≠ [] ∧ mime_type ∉ mime_types then false
  else if file_extensions ≠ [] ∧ get_file_extension file_name ∉ file_extensions then false
  else if return_object = false ∧ overwrite = false
      ∧ existsAt fs_exists file_path = true then false
  else true

/-- A remote Drive item as returned by the files().list call: id, name,
mimeType, optional declared size, and (for the model) the children the
API would list under it.  Non-folder items never have their children
listed by the code. -/
inductive DriveNode : Type where
  | mk (id name mimeType : String) (size : Option Nat) (children : List DriveNode)

def DriveNode.id : DriveNode → String
  | .mk i _ _ _ _ => i

def DriveNode.name : DriveNode → String
  | .mk _ n _ _ _ => n

def DriveNode.mimeType : DriveNode → String
  | .mk _ _ m _ _ => m

def DriveNode.size : DriveNode → Option Nat
  | .mk _ _ _ s _ => s

def DriveNode.children : DriveNode → List DriveNode
  | .mk _ _ _ _ cs => cs

/-- The descriptor dictionary yielded by fetch_files_in_folder. -/
structure RemoteFile where
  id : String
  name : String
  mimeType : String
  size : Nat
  path : String
deriving DecidableEq

/-- The descriptor fetch_files_in_folder yields for one listed item at
a given parent path: path joined, size defaulted to 0. -/
def remoteDescriptor (current_path : String) (t : DriveNode) : RemoteFile :=
  ⟨t.id, t.name, t.mimeType, t.size.getD 0, joinPath current_path t.name⟩

mutual
/-- One iteration of the loop in fetch_files_in_folder, for a single
listed item: a folder item with recursive=true is descended into (its
own yields spliced in place); every other item is yielded. -/
def fetchTree (recursive : Bool) (current_path : String) : DriveNode → List RemoteFile
  | .mk i n m s cs =>
    let item_path := joinPath current_path n
    if m = folderMime && recursive then fetchList recursive item_path cs
    else [⟨i, n, m, s.getD 0, item_path⟩]

/-- fetch_files_in_folder from download_drive.py, given the listing of
the queried folder (its children, in API listing order). -/
def fetchList (recursive : Bool) (current_path : String) : List DriveNode → List RemoteFile
  | [] => []
  | c :: cs => fetchTree recursive current_path c ++ fetchList recursive current_path cs
end

mutual
/-- Well-formed remote tree: an item whose MIME type is not the folder
type holds no children (the storage backend only parents items under
folders). -/
def wfTree : DriveNode → Bool
  | .mk _ _ m _ cs => (m = folderMime || cs.isEmpty) && wfList cs

def wfList : List DriveNode → Bool
  | [] => true
  | c :: cs => wfTree c && wfList cs
end

mutual
/-- Number of non-folder (leaf) nodes anywhere in the tree. -/
def leafCountTree : DriveNode → Nat
  | .mk _ _ m _ cs => (if m = folderMime then 0 else 1) + leafCountList cs

def leafCountList : List DriveNode → Nat
  | [] => 0
  | c :: cs => leafCountTree c + leafCountList cs
end

/-- A local filesystem entry under the destination root: a regular file
with a byte size, or a directory with entries. -/
inductive LocalEntry : Type where
  | file (name : String) (size : Nat)
  | dir (name : String) (children : List LocalEntry)

mutual
/-- Relative path to size pairs contributed by one entry reached at
relative prefix rel, as os.walk plus os.path.relpath produces them. -/
def walkEntry (rel : String) : LocalEntry → List (String × Nat)
  | .file n s => [(joinPath rel n, s)]
  | .dir n cs => walkEntries (joinPath rel n) cs

def walkEntries (rel : String) : List LocalEntry → List (String × Nat)
  | [] => []
  | e :: es => walkEntry rel e ++ walkEntries rel es
end

/-- The local_files mapping built by calculate_total_download_size from
os.walk(local_folder_path): an absent root yields no walk output at all,
hence an empty mapping. -/
def build_local_files : Option (List LocalEntry) → List (String × Nat)
  | none => []
  | some es => walkEntries "" es

/-- Key membership in the local_files mapping. -/
def localHas (locals : List (String × Nat)) (p : String) : Bool :=
  (locals.find? (fun q => q.fst = p)).isSome

/-- calculate_total_download_size from download_drive.py, over the
listing of the queried folder and the (possibly absent) local root.
The mime_types and file_extensions arguments are accepted and, exactly
as in the source, never consulted. -/
def calculate_total_download_size (children : List DriveNode)
    (local_root : Option (List LocalEntry)) (recursive overwrite : Bool)
    (mime_types file_extensions : List String) : Nat :=
  let remote_files := fetchList recursive "" children
  let local_files := build_local_files local_root
  let _ := mime_types
  let _ := file_extensions
  remote_files.foldl
    (fun total f => if localHas local_files f.path && !overwrite then total else total + f.size) 0

/-- Sum of declared sizes of a list of remote descriptors. -/
def sumSizes (l : List RemoteFile) : Nat := (l.map (fun f => f.size)).sum

/-- The size total exactly as claim C2 words it: an item contributes its
size only if it survives the MIME-type and extension filters (rules 1-2
of the inclusion decision), and a surviving item is excluded exactly
when its relative path exists locally and overwrite is false. -/
def claimedTotalSize (children : List DriveNode)
    (local_root : Option (List LocalEntry)) (recursive overwrite : Bool)
    (mime_types file_extensions : List String) : Nat :=
  let remote_files := fetchList recursive "" children
  let local_files := build_local_files local_root
  remote_files.foldl
    (fun total f =>
      if (mime_types ≠ [] ∧ f.mimeType ∉ mime_types)
          ∨ (file_extensions ≠ [] ∧ claimedExtension f.name ∉ file_extensions) then total
      else if localHas local_files f.path && !overwrite then total
      else total + f.size) 0

/-- Observable external effects of one check_disk_space call: how many
remote list requests were issued, whether the local tree was walked,
and whether free disk space was queried. -/
structure CheckEffects where
  remote_listings : Nat
  local_walked : Bool
  disk_queried : Bool
deriving DecidableEq

mutual
/-- Remote list calls triggered by recursing into one listed item. -/
def listingsTree (recursive : Bool) : DriveNode → Nat
  | .mk _ _ m _ cs => if m = folderMime && recursive then 1 + listingsList recursive cs else 0

/-- Remote list calls issued by one fetch_files_in_folder activation on
a folder with the given children: one for its own query plus those of
the folders it descends into. -/
def listingsList (recursive : Bool) : List DriveNode → Nat
  | [] => 0
  | c :: cs => listingsTree recursive c + listingsList recursive cs
end

/-- check_disk_space from download_drive.py, with an effect log.  The
destination volume's free space is the free_gb field of the
environment, in GiB, as disk_space() reports it. -/
def check_disk_space (local_folder_path : Option String) (children : List DriveNode)
    (local_root : Option (List LocalEntry)) (free_gb : ℚ) (recursive : Bool)
    (mime_types file_extensions : List String) (overwrite : Bool) : Bool × CheckEffects :=
  if truthyOpt local_folder_path = false then (true, ⟨0, false, false⟩)
  else
    let total_size := calculate_total_download_size children local_root recursive overwrite
      mime_types file_extensions
    (if (total_size : ℚ) / 1024 ^ 3 > free_gb then false else true,
      ⟨1 + listingsList recursive children, true, true⟩)

mutual
/-- One iteration of the loop in download_files_in_folder for a single
listed item, returning the ids of the files for which download_file is
invoked, in invocation order. -/
def planTree (fs_exists : String → Bool) (mime_types file_extensions : List String)
    (return_object overwrite recursive : Bool) (folder_path : Option String) :
    DriveNode → List String
  | .mk i n m _ cs =>
    if m = folderMime then
      if recursive then
        planList fs_exists mime_types file_extensions return_object overwrite recursive
          (optJoin folder_path n) cs
      else []
    else
      if should_process_file m (get_file_extension n) (optJoin folder_path n)
          mime_types file_extensions return_object overwrite fs_exists then [i]
      else []

/-- download_files_in_folder from download_drive.py, reduced to the
sequence of download_file invocations it performs. -/
def planList (fs_exists : String → Bool) (mime_types file_extensions : List String)
    (return_object overwrite recursive : Bool) (folder_path : Option String) :
    List DriveNode → List String
  | [] => []
  | c :: cs =>
    planTree fs_exists mime_types file_extensions return_object overwrite recursive
      folder_path c
    ++ planList fs_exists mime_types file_extensions return_object overwrite recursive
      folder_path cs
end

/-- process_drive_item from download_drive.py, reduced to the sequence
of download_file invocations it performs. -/
def process_drive_item_plan (item : DriveNode) (local_folder_path : Option String)
    (recursive overwrite return_object : Bool) (mime_types file_extensions : List String)
    (fs_exists : String → Bool) : List String :=
  if item.mimeType = folderMime then
    planList fs_exists mime_types file_extensions return_object overwrite recursive
      local_folder_path item.children
  else
    if should_process_file item.mimeType (get_file_extension item.name)
        (optJoin local_folder_path item.name) mime_types file_extensions
        return_object overwrite fs_exists then [item.id]
    else []

/-- The CLI arguments of download_drive.py after argparse. -/
structure CliArgs where
  local_folder_path : Option String
  recursive : Bool
  overwrite : Bool
  return_object : Bool
  mime_types : List String
  file_extensions : List String

/-- Outcome of one run of the download tool: the process exit code and
the ids of the files transferred (download_file invocations). -/
structure MainResult where
  exit_code : Nat
  downloads : List String
deriving DecidableEq

/-- The main block of download_drive.py: the disk-space gate runs
first; on failure the process exits with code 1 having transferred
nothing; otherwise process_drive_item runs. -/
def main_run (args : CliArgs) (rootItem : DriveNode)
    (local_root : Option (List LocalEntry)) (free_gb : ℚ)
    (fs_exists : String → Bool) : MainResult :=
  if (check_disk_space args.local_folder_path rootItem.children local_root free_gb
      args.recursive args.mime_types args.file_extensions args.overwrite).fst = false then
    ⟨1, []⟩
  else
    ⟨0, process_drive_item_plan rootItem args.local_folder_path args.recursive
      args.overwrite args.return_object args.mime_types args.file_extensions fs_exists⟩

/-- The export table of download_file: native document MIME types and
the fixed target format each is exported to. -/
def export_mime_types : List (String × String) :=
  [("application/vnd.google-apps.document", "application/pdf"),
   ("application/vnd.google-apps.spreadsheet",
     "application/vnd.openxmlformats-officedocument.spreadsheetml.sheet"),
   ("application/vnd.google-apps.presentation",
     "application/vnd.openxmlformats-officedocument.presentationml.presentation")]

/-- The request download_file builds: an export conversion to a target
format, or a raw media fetch. -/
inductive FetchKind : Type where
  | exportMedia (target : String)
  | getMedia
deriving DecidableEq

/-- Which fetch operation download_file uses for a given MIME type. -/
def download_fetch (mime_type : String) : FetchKind :=
  match (export_mime_types.find? (fun p => p.fst = mime_type)).map (fun p => p.snd) with
  | some target => .exportMedia target
  | none => .getMedia

/-- The output file name download_file reports: in the export branch the
code appends the file_extension argument (which callers compute from the
item's own name); otherwise the name is unchanged. -/
def download_output_name (file_name mime_type file_extension : String) : String :=
  if (export_mime_types.find? (fun p => p.fst = mime_type)).isSome then
    file_name ++ file_extension
  else file_name

/-- Two-decimal rendering of the exact value n / 2 ^ m, rounding half to
even, as Python %.2f does on the (exactly representable) float values
human_readable_size manipulates: the input is an integer byte count and
every division by 1024 is exact in binary floating point. -/
def fmt2 (n m : Nat) : String :=
  let scaled := 100 * n
  let d := 2 ^ m
  let q := scaled / d
  let r := scaled % d
  let c := if d < 2 * r then q + 1 else if 2 * r < d then q else if q % 2 = 0 then q else q + 1
  toString (c / 100) ++ "." ++ (if c % 100 < 10 then "0" ++ toString (c % 100) else toString (c % 100))

/-- The unit list human_readable_size iterates over. -/
def sizeUnits : List String := ["B", "KB", "MB", "GB", "TB"]

/-- The loop of human_readable_size, with the running value carried
exactly as the dyadic n / 2 ^ m (each division by 1024 adds 10 to m). -/
def hrs_go : List String → Nat → Nat → String
  | [], n, m => fmt2 n m ++ " PB"
  | u :: us, n, m =>
    if n < 1024 * 2 ^ m then fmt2 n m ++ " " ++ u else hrs_go us n (m + 10)

/-- human_readable_size from download_drive.py, on an integer size. -/
def human_readable_size (size : Nat) : String := hrs_go sizeUnits size 0

/-- The unit printed for scaling step k: B, KB, MB, GB, TB for k < 5,
and PB for everything beyond. -/
def unitName (k : Nat) : String := if h : k < 5 then sizeUnits.get ⟨k, h⟩ else "PB"

/-- Metadata of one remote file, as the upload tool's queries and the
spec's data model see it. -/
structure DriveMeta where
  name : String
  parents : List String
  mimeType : String
  trashed : Bool
deriving DecidableEq

/-- One stored remote file: metadata plus content bytes. -/
structure DriveFile where
  meta : DriveMeta
  content : List Nat
deriving DecidableEq

/-- The remote store: files keyed by identifier, in listing order. -/
abbrev DriveState := List (String × DriveFile)

/-- Look a file up by identifier. -/
def stateLookup (s : DriveState) (i : String) : Option DriveFile :=
  (s.find? (fun p => p.fst == i)).map (fun p => p.snd)

/-- file_exists from drive_upload_to_folder.py: the id of the first
non-folder, non-trashed file with the given name under the given
parent, if any. -/
def file_exists (s : DriveState) (file_name folder_id : String) : Option String :=
  (s.find? (fun p =>
    p.snd.meta.name == file_name && p.snd.meta.parents.contains folder_id
      && p.snd.meta.mimeType != folderMime && !p.snd.meta.trashed)).map (fun p => p.fst)

/-- Modelled from the spec: the external storage client's
update-content(id, content) collaborator operation (files().update
invoked with only fileId and media_body, no metadata body), which
replaces the stored content of the file with that identifier and
changes nothing else. -/
def update_content (s : DriveState) (fid : String) (newContent : List Nat) : DriveState :=
  s.map (fun p => if p.fst = fid then (p.fst, ⟨p.snd.meta, newContent⟩) else p)

/-- Modelled from the spec: the external storage client's
create(metadata, content) collaborator operation for the metadata
upload_file sends: a new file with the given name, the destination
folder as sole parent, and the uploaded content. -/
def create_file (s : DriveState) (newId file_name folder_id newMime : String)
    (content : List Nat) : DriveState :=
  s ++ [(newId, ⟨⟨file_name, [folder_id], newMime, false⟩, content⟩)]

/-- os.path.basename: the substring after the last path separator. -/
def basename (p : String) : String :=
  match lastIndexOf '/' p.data with
  | none => p
  | some i => String.mk (p.data.drop (i + 1))

/-- upload_file from drive_upload_to_folder.py, as a state transformer
on the remote store paired with the returned file id (None when the
upload is refused or fails).  newId and newMime stand for the id and
detected MIME type the backend would assign to a newly created file. -/
def upload_file (s : DriveState) (file_path folder_id : String) (overwrite : Bool)
    (content : List Nat) (newId newMime : String) : DriveState × Option String :=
  let file_name := basename file_path
  match file_exists s file_name folder_id with
  | some existing_file_id =>
    if overwrite then (update_content s existing_file_id content, some existing_file_id)
    else (s, none)
  | none => (create_file s newId file_name folder_id newMime content, some newId)

theorem fetchList_append (recursive : Bool) (p : String) (xs ys : List DriveNode) :
    fetchList recursive p (xs ++ ys) = fetchList recursive p xs ++ fetchList recursive p ys := by
  induction xs with
  | nil => rfl
  | cons c cs ih => simp [fetchList, ih]

mutual
theorem fetchTree_true_length : ∀ (p : String) (t : DriveNode), wfTree t = true →
    (fetchTree true p t).length = leafCountTree t
  | p, .mk i n m s cs, h => by
    have h1 : (m = folderMime || cs.isEmpty) = true ∧ wfList cs = true := by
      simpa [wfTree, Bool.and_eq_true] using h
    by_cases hm : m = folderMime
    · simp [fetchTree, leafCountTree, hm, fetchList_true_length (joinPath p n) cs h1.2]
    · have hemp : cs.isEmpty = true := by
        have := h1.1
        simpa [hm] using this
      have hcs : cs = [] := by simpa using hemp
      subst hcs
      simp [fetchTree, leafCountTree, leafCountList, hm]

theorem fetchList_true_length : ∀ (p : String) (cs : List DriveNode), wfList cs = true →
    (fetchList true p cs).length = leafCountList cs
  | _, [], _ => rfl
  | p, c :: cs, h => by
    have h1 : wfTree c = true ∧ wfList cs = true := by
      simpa [wfList, Bool.and_eq_true] using h
    simp [fetchList, leafCountList, fetchTree_true_length p c h1.1,
      fetchList_true_length p cs h1.2]
end

mutual
theorem fetchTree_true_no_folder : ∀ (p : String) (t : DriveNode) (f : RemoteFile),
    f ∈ fetchTree true p t → f.mimeType ≠ folderMime
  | p, .mk i n m s cs, f, hf => by
    by_cases hm : m = folderMime
    · have hf2 : f ∈ fetchList true (joinPath p n) cs := by
        simpa [fetchTree, hm] using hf
      exact fetchList_true_no_folder (joinPath p n) cs f hf2
    · have : f = ⟨i, n, m, s.getD 0, joinPath p n⟩ := by
        simpa [fetchTree, hm] using hf
      subst this
      simpa using hm

theorem fetchList_true_no_folder : ∀ (p : String) (cs : List DriveNode) (f : RemoteFile),
    f ∈ fetchList true p cs → f.mimeType ≠ folderMime
  | p, c :: cs, f, hf => by
    rcases List.mem_append.mp (by simpa [fetchList] using hf) with h | h
    · exact fetchTree_true_no_folder p c f h
    · exact fetchList_true_no_folder p cs f h
end

theorem fetchTree_false_eq (p : String) (t : DriveNode) :
    fetchTree false p t = [remoteDescriptor p t] := by
  cases t with
  | mk i n m s cs => simp [fetchTree, remoteDescriptor, DriveNode.id, DriveNode.name,
      DriveNode.mimeType, DriveNode.size, DriveNode.children]

theorem foldl_skip_sum (skip : RemoteFile → Bool) :
    ∀ (l : List RemoteFile) (acc : Nat),
      l.foldl (fun total f => if skip f then total else total + f.size) acc
      = acc + sumSizes (l.filter (fun f => !skip f))
  | [], acc => by simp [sumSizes]
  | f :: fs, acc => by
    by_cases h : skip f = true
    · simp [List.foldl, List.filter, h, foldl_skip_sum skip fs acc]
    · have h2 : skip f = false := by simpa using h
      simp [List.foldl, List.filter, h2, foldl_skip_sum skip fs (acc + f.size), sumSizes]
      omega

theorem calc_total_eq (children : List DriveNode) (local_root : Option (List LocalEntry))
    (recursive overwrite : Bool) (mime_types file_extensions : List String) :
    calculate_total_download_size children local_root recursive overwrite mime_types
      file_extensions
    = sumSizes ((fetchList recursive "" children).filter
        (fun f => overwrite || !localHas (build_local_files local_root) f.path)) := by
  unfold calculate_total_download_size
  rw [foldl_skip_sum (fun f => localHas (build_local_files local_root) f.path && !overwrite)]
  simp only [Nat.zero_add]
  congr 1
  apply List.filter_congr
  intro f _
  cases overwrite <;> cases localHas (build_local_files local_root) f.path <;> rfl

theorem stateLookup_cons (q : String × DriveFile) (t : DriveState) (i : String) :
    stateLookup (q :: t) i = if q.fst = i then some q.snd else stateLookup t i := by
  by_cases h : q.fst = i
  · rw [stateLookup, List.find?_cons_of_pos _ (by simp [h])]
    simp [h]
  · rw [stateLookup, List.find?_cons_of_neg _ (by simp [h]), if_neg h]
    rfl

theorem update_content_cons (p : String × DriveFile) (t : DriveState) (fid : String)
    (c : List Nat) :
    update_content (p :: t) fid c
    = (if p.fst = fid then (p.fst, ⟨p.snd.meta, c⟩) else p) :: update_content t fid c := rfl

theorem stateLookup_update_content (s : DriveState) (fid : String) (c : List Nat) (i : String) :
    stateLookup (update_content s fid c) i
    = if i = fid then (stateLookup s i).map (fun f => ⟨f.meta, c⟩) else stateLookup s i := by
  induction s with
  | nil => simp [stateLookup, update_content]
  | cons p t ih =>
    rw [update_content_cons]
    by_cases hpf : p.fst = fid
    · rw [if_pos hpf, stateLookup_cons, stateLookup_cons]
      by_cases hip : p.fst = i
      · have hif : i = fid := by rw [← hip, hpf]
        simp [hip, hif]
      · simp [hip, ih]
    · rw [if_neg hpf, stateLookup_cons, stateLookup_cons]
      by_cases hip : p.fst = i
      · have hif : ¬ i = fid := by rw [← hip]; exact hpf
        simp [hip, hif]
      · simp only [if_neg hip, ih]

/-- Claim C1, counterexample to the claim as stated: for the remote item
named ".bashrc" with the extension filter {".bashrc"}, the claimed rules
(extension = substring from the final dot, here ".bashrc", a member)
include the item, but the code (os.path.splitext yields "" for a base
name whose only non-leading characters follow no earlier non-dot)
excludes it. -/
theorem C1_counterexample :
    should_process_file "text/plain" (get_file_extension ".bashrc") none [] [".bashrc"]
      true false (fun _ => false) = false
    ∧ includeDecisionClaimed "text/plain" ".bashrc" none [] [".bashrc"]
      true false (fun _ => false) = true := by decide

/-- Claim C1 (amended): for every remote item, the inclusion decision
applies the filter rules in order with first match winning — MIME set
non-empty and MIME not a member excludes; extension set non-empty and
the item's os.path.splitext extension not a member excludes; otherwise
with return-objects off, overwrite off and an existing local file at
the destination path the item is excluded; otherwise it is included.
The hypothesis records that os.path.exists is false on the empty
string, as it is in Python. -/
theorem C1_filter_order (mime_type file_name : String) (file_path : Option String)
    (mime_types file_extensions : List String) (return_object overwrite : Bool)
    (fs_exists : String → Bool) (hfs : fs_exists "" = false) :
    should_process_file mime_type (get_file_extension file_name) file_path mime_types
      file_extensions return_object overwrite fs_exists
    = includeDecisionAmended mime_type file_name file_path mime_types file_extensions
      return_object overwrite fs_exists := by
  cases file_path with
  | none =>
    cases return_object <;> cases overwrite <;>
      simp [should_process_file, includeDecisionAmended, truthyOpt, existsAt]
  | some p =>
    by_cases hp : p = ""
    · subst hp
      cases return_object <;> cases overwrite <;>
        simp [should_process_file, includeDecisionAmended, truthyOpt, existsAt, hfs]
    · cases return_object <;> cases overwrite <;>
        simp [should_process_file, includeDecisionAmended, truthyOpt, existsAt, hp]

/-- Claim C1 witness: the amended equivalence applied to a concrete
item, with the os.path.exists hypothesis discharged. -/
theorem C1_filter_order_witness :
    should_process_file "application/pdf" (get_file_extension "doc.pdf")
      (some "/dst/doc.pdf") [] [".pdf"] false false (fun _ => false)
    = includeDecisionAmended "application/pdf" "doc.pdf" (some "/dst/doc.pdf") [] [".pdf"]
      false false (fun _ => false) :=
  C1_filter_order "application/pdf" "doc.pdf" (some "/dst/doc.pdf") [] [".pdf"]
    false false (fun _ => false) rfl

/-- Claim C2, counterexample to the claim as stated: a remote file whose
MIME type fails the MIME filter (text/plain against {application/pdf})
still has its declared 100 bytes added to the pre-check total, whereas
the claimed accounting (size counted only for items surviving the
MIME/extension filters) would total 0. -/
theorem C2_counterexample :
    calculate_total_download_size [.mk "a" "x.txt" "text/plain" (some 100) []] none true false
      ["application/pdf"] [] = 100
    ∧ claimedTotalSize [.mk "a" "x.txt" "text/plain" (some 100) []] none true false
      ["application/pdf"] [] = 0 := by decide

/-- Claim C2 (amended): every remote item enumerated during the
download pre-check has its declared size added to the total regardless
of the MIME-type and extension filters (the code accepts but never
consults them); an item is excluded from the total exactly when its
relative path already exists in the local mapping and overwrite is
false. -/
theorem C2_size_accounting (children : List DriveNode)
    (local_root : Option (List LocalEntry)) (recursive overwrite : Bool)
    (mime_types file_extensions : List String) :
    calculate_total_download_size children local_root recursive overwrite mime_types
      file_extensions
    = sumSizes ((fetchList recursive "" children).filter
        (fun f => overwrite || !localHas (build_local_files local_root) f.path)) :=
  calc_total_eq children local_root recursive overwrite mime_types file_extensions

/-- Claim C4, counterexample to the claim as stated: with
recursive=false the walker yields a descriptor for a folder-typed
immediate child (with size defaulted to 0), so a folder-typed item can
be yielded. -/
theorem C4_counterexample :
    ∃ f ∈ fetchList false "" [DriveNode.mk "f1" "sub" folderMime none []],
      f.mimeType = folderMime := by decide

/-- Claim C4 (amended): with recursive=false the walk yields exactly one
descriptor per immediate child of the given container, in listing order
(no descent), including folder-typed children, whose size defaults
to 0. -/
theorem C4_nonrecursive_walk (p : String) (cs : List DriveNode) :
    fetchList false p cs = cs.map (remoteDescriptor p) := by
  induction cs with
  | nil => rfl
  | cons c rest ih => simp [fetchList, fetchTree_false_eq, ih]

/-- Claim C5, evaluation of the code at the failing input: a native
document (application/vnd.google-apps.document) named "report" is
fetched through export_media with the fixed PDF target, but the
reported output name stays "report" — the code appends the item's own
(here empty) extension rather than the ".pdf" of the target format.
For non-native MIME types the raw media fetch leaves the name
unchanged, as claimed. -/
theorem C5_export_eval :
    download_fetch "application/vnd.google-apps.document"
      = FetchKind.exportMedia "application/pdf"
    ∧ download_output_name "report" "application/vnd.google-apps.document"
      (get_file_extension "report") = "report"
    ∧ download_output_name "report" "application/vnd.google-apps.document"
      (get_file_extension "report") ≠ "report.pdf"
    ∧ download_fetch "text/plain" = FetchKind.getMedia
    ∧ download_output_name "notes.txt" "text/plain" (get_file_extension "notes.txt")
      = "notes.txt" := by decide

/-- Claim C9: an absent local root produces an empty path-to-size
mapping, and consequently the pre-check total excludes nothing: it is
the full sum of the declared sizes of all enumerated remote items. -/
theorem C9_absent_root :
    build_local_files none = []
    ∧ ∀ (children : List DriveNode) (recursive overwrite : Bool)
        (mime_types file_extensions : List String),
        calculate_total_download_size children none recursive overwrite mime_types
          file_extensions
        = sumSizes (fetchList recursive "" children) := by
  refine ⟨rfl, fun children recursive overwrite mime_types file_extensions => ?_⟩
  rw [calc_total_eq]
  simp [build_local_files, localHas]

/-- Claim C10: with no local destination path (None or empty, as in
return-objects mode) check_disk_space returns success immediately,
issuing no remote list request, walking no local tree, and never
querying free disk space. -/
theorem C10_no_path_bypass (children : List DriveNode)
    (local_root : Option (List LocalEntry)) (free_gb : ℚ) (recursive overwrite : Bool)
    (mime_types file_extensions : List String) :
    check_disk_space none children local_root free_gb recursive mime_types
      file_extensions overwrite = (true, ⟨0, false, false⟩)
    ∧ check_disk_space (some "") children local_root free_gb recursive mime_types
      file_extensions overwrite = (true, ⟨0, false, false⟩) := by
  constructor <;> simp [check_disk_space, truthyOpt]

/-- Claim C3: over a well-formed remote tree (non-folder items hold no
children), the recursive walk yields exactly the non-folder leaf nodes:
the number of yielded items equals the leaf count, no folder-typed item
is ever yielded, and the yields of any listed child appear contiguously
after all of its earlier siblings' yields and before any later
sibling's (depth-first order). -/
theorem C3_recursive_walk (p : String) (cs : List DriveNode) (h : wfList cs = true) :
    (fetchList true p cs).length = leafCountList cs
    ∧ (∀ f ∈ fetchList true p cs, f.mimeType ≠ folderMime)
    ∧ ∀ pre c rest, cs = pre ++ c :: rest →
        fetchList true p cs
        = fetchList true p pre ++ (fetchTree true p c ++ fetchList true p rest) := by
  refine ⟨fetchList_true_length p cs h, fun f hf => fetchList_true_no_folder p cs f hf,
    fun pre c rest hc => ?_⟩
  subst hc
  rw [fetchList_append]
  rfl

/-- Claim C3 witness: the recursive walk applied to a concrete
two-level tree (a subfolder holding two files, then a sibling file),
with well-formedness discharged. -/
theorem C3_recursive_walk_witness :
    (fetchList true ""
        [DriveNode.mk "s" "sub" folderMime none
          [DriveNode.mk "b" "b.txt" "text/plain" (some 2) [],
           DriveNode.mk "c" "c.txt" "text/plain" (some 3) []],
         DriveNode.mk "a" "a.txt" "text/plain" (some 1) []]).length
      = leafCountList
        [DriveNode.mk "s" "sub" folderMime none
          [DriveNode.mk "b" "b.txt" "text/plain" (some 2) [],
           DriveNode.mk "c" "c.txt" "text/plain" (some 3) []],
         DriveNode.mk "a" "a.txt" "text/plain" (some 1) []]
    ∧ (∀ f ∈ fetchList true ""
        [DriveNode.mk "s" "sub" folderMime none
          [DriveNode.mk "b" "b.txt" "text/plain" (some 2) [],
           DriveNode.mk "c" "c.txt" "text/plain" (some 3) []],
         DriveNode.mk "a" "a.txt" "text/plain" (some 1) []], f.mimeType ≠ folderMime)
    ∧ ∀ pre c rest,
        [DriveNode.mk "s" "sub" folderMime none
          [DriveNode.mk "b" "b.txt" "text/plain" (some 2) [],
           DriveNode.mk "c" "c.txt" "text/plain" (some 3) []],
         DriveNode.mk "a" "a.txt" "text/plain" (some 1) []] = pre ++ c :: rest →
        fetchList true ""
          [DriveNode.mk "s" "sub" folderMime none
            [DriveNode.mk "b" "b.txt" "text/plain" (some 2) [],
             DriveNode.mk "c" "c.txt" "text/plain" (some 3) []],
           DriveNode.mk "a" "a.txt" "text/plain" (some 1) []]
        = fetchList true "" pre ++ (fetchTree true "" c ++ fetchList true "" rest) :=
  C3_recursive_walk ""
    [DriveNode.mk "s" "sub" folderMime none
      [DriveNode.mk "b" "b.txt" "text/plain" (some 2) [],
       DriveNode.mk "c" "c.txt" "text/plain" (some 3) []],
     DriveNode.mk "a" "a.txt" "text/plain" (some 1) []] (by decide)

/-- Claim C6: with a truthy local destination path, whenever the
computed total download size, scaled to GiB as the code scales it,
exceeds the free space of the destination volume, the disk-space check
returns failure and the main block exits with code 1 having performed
no download. -/
theorem C6_disk_gate (args : CliArgs) (rootItem : DriveNode)
    (local_root : Option (List LocalEntry)) (free_gb : ℚ) (fs_exists : String → Bool)
    (hpath : truthyOpt args.local_folder_path = true)
    (hover : (calculate_total_download_size rootItem.children local_root args.recursive
        args.overwrite args.mime_types args.file_extensions : ℚ) / 1024 ^ 3 > free_gb) :
    (check_disk_space args.local_folder_path rootItem.children local_root free_gb
      args.recursive args.mime_types args.file_extensions args.overwrite).fst = false
    ∧ main_run args rootItem local_root free_gb fs_exists = ⟨1, []⟩ := by
  have hc : (check_disk_space args.local_folder_path rootItem.children local_root free_gb
      args.recursive args.mime_types args.file_extensions args.overwrite).fst = false := by
    simp [check_disk_space, hpath, hover]
  exact ⟨hc, by simp [main_run, hc]⟩

/-- Claim C6 witness: a 1 TiB remote file against 1 GiB of free space,
behind a concrete destination path. -/
theorem C6_disk_gate_witness :
    (check_disk_space (CliArgs.mk (some "/dst") true false false [] []).local_folder_path
      (DriveNode.mk "r" "R" folderMime none
        [DriveNode.mk "a" "x.bin" "application/octet-stream" (some 1099511627776) []]).children
      none 1 (CliArgs.mk (some "/dst") true false false [] []).recursive
      (CliArgs.mk (some "/dst") true false false [] []).mime_types
      (CliArgs.mk (some "/dst") true false false [] []).file_extensions
      (CliArgs.mk (some "/dst") true false false [] []).overwrite).fst = false
    ∧ main_run (CliArgs.mk (some "/dst") true false false [] [])
      (DriveNode.mk "r" "R" folderMime none
        [DriveNode.mk "a" "x.bin" "application/octet-stream" (some 1099511627776) []])
      none 1 (fun _ => false) = ⟨1, []⟩ := by
  have ht : calculate_total_download_size
      (DriveNode.mk "r" "R" folderMime none
        [DriveNode.mk "a" "x.bin" "application/octet-stream" (some 1099511627776) []]).children
      none (CliArgs.mk (some "/dst") true false false [] []).recursive
      (CliArgs.mk (some "/dst") true false false [] []).overwrite
      (CliArgs.mk (some "/dst") true false false [] []).mime_types
      (CliArgs.mk (some "/dst") true false false [] []).file_extensions
      = 1099511627776 := by decide
  exact C6_disk_gate (CliArgs.mk (some "/dst") true false false [] [])
    (DriveNode.mk "r" "R" folderMime none
      [DriveNode.mk "a" "x.bin" "application/octet-stream" (some 1099511627776) []])
    none 1 (fun _ => false) (by decide) (by rw [ht]; norm_num)

/-- Claim C8: uploading a file whose name already exists in the
destination folder with overwrite enabled updates the existing remote
file by its identifier with new content only — the returned id is the
existing id, every file's metadata (name, parents, MIME type, trash
state) is unchanged, files other than the target are untouched
entirely, and the target's content becomes the uploaded bytes. -/
theorem C8_upload_overwrite (s : DriveState) (file_path folder_id : String)
    (content : List Nat) (newId newMime eid : String)
    (hex : file_exists s (basename file_path) folder_id = some eid) :
    (upload_file s file_path folder_id true content newId newMime).snd = some eid
    ∧ (∀ i, (stateLookup (upload_file s file_path folder_id true content newId newMime).fst
          i).map (fun f => f.meta) = (stateLookup s i).map (fun f => f.meta))
    ∧ (∀ i, i ≠ eid →
        stateLookup (upload_file s file_path folder_id true content newId newMime).fst i
        = stateLookup s i)
    ∧ stateLookup (upload_file s file_path folder_id true content newId newMime).fst eid
      = (stateLookup s eid).map (fun f => ⟨f.meta, content⟩) := by
  have hup : upload_file s file_path folder_id true content newId newMime
      = (update_content s eid content, some eid) := by
    unfold upload_file
    simp only []
    rw [hex]
    simp
  refine ⟨by rw [hup], fun i => ?_, fun i hi => ?_, ?_⟩
  · rw [hup]
    simp only [stateLookup_update_content]
    by_cases h : i = eid
    · simp [h, Option.map_map]
      rfl
    · simp [h]
  · rw [hup]
    simp [stateLookup_update_content, hi]
  · rw [hup]
    simp [stateLookup_update_content]

/-- Claim C8 witness: overwriting "a.txt" in folder "dest" over a
concrete two-file store. -/
theorem C8_upload_overwrite_witness :
    (upload_file
      [("e1", ⟨⟨"a.txt", ["dest"], "text/plain", false⟩, [1, 2]⟩),
       ("e2", ⟨⟨"b.txt", ["dest"], "text/plain", false⟩, [3]⟩)]
      "local/a.txt" "dest" true [9] "n1" "text/plain").snd = some "e1"
    ∧ (∀ i, (stateLookup (upload_file
        [("e1", ⟨⟨"a.txt", ["dest"], "text/plain", false⟩, [1, 2]⟩),
         ("e2", ⟨⟨"b.txt", ["dest"], "text/plain", false⟩, [3]⟩)]
        "local/a.txt" "dest" true [9] "n1" "text/plain").fst i).map (fun f => f.meta)
      = (stateLookup
        [("e1", ⟨⟨"a.txt", ["dest"], "text/plain", false⟩, [1, 2]⟩),
         ("e2", ⟨⟨"b.txt", ["dest"], "text/plain", false⟩, [3]⟩)] i).map (fun f => f.meta))
    ∧ (∀ i, i ≠ "e1" →
        stateLookup (upload_file
        [("e1", ⟨⟨"a.txt", ["dest"], "text/plain", false⟩, [1, 2]⟩),
         ("e2", ⟨⟨"b.txt", ["dest"], "text/plain", false⟩, [3]⟩)]
        "local/a.txt" "dest" true [9] "n1" "text/plain").fst i
        = stateLookup
        [("e1", ⟨⟨"a.txt", ["dest"], "text/plain", false⟩, [1, 2]⟩),
         ("e2", ⟨⟨"b.txt", ["dest"], "text/plain", false⟩, [3]⟩)] i)
    ∧ stateLookup (upload_file
        [("e1", ⟨⟨"a.txt", ["dest"], "text/plain", false⟩, [1, 2]⟩),
         ("e2", ⟨⟨"b.txt", ["dest"], "text/plain", false⟩, [3]⟩)]
        "local/a.txt" "dest" true [9] "n1" "text/plain").fst "e1"
      = (stateLookup
        [("e1", ⟨⟨"a.txt", ["dest"], "text/plain", false⟩, [1, 2]⟩),
         ("e2", ⟨⟨"b.txt", ["dest"], "text/plain", false⟩, [3]⟩)] "e1").map
          (fun f => ⟨f.meta, [9]⟩) :=
  C8_upload_overwrite
    [("e1", ⟨⟨"a.txt", ["dest"], "text/plain", false⟩, [1, 2]⟩),
     ("e2", ⟨⟨"b.txt", ["dest"], "text/plain", false⟩, [3]⟩)]
    "local/a.txt" "dest" [9] "n1" "text/plain" "e1" (by decide)

theorem string_append_assoc (a b c : String) : (a ++ b) ++ c = a ++ (b ++ c) :=
  String.ext (by simp [String.data_append])

/-- Claim C7: the human-readable formatter maps 0 to "0.00 B", 1536 to
"1.50 KB" and 1073741824 to "1.00 GB"; in general it scales the size by
factors of 1024 through B, KB, MB, GB, TB and finally PB — stopping at
the first unit (before PB) where the scaled value drops below 1024 —
and prints the scaled value (the exact dyadic size / 1024 ^ k rendered
by fmt2) to two decimal places followed by the unit. -/
theorem C7_human_readable :
    human_readable_size 0 = "0.00 B"
    ∧ human_readable_size 1536 = "1.50 KB"
    ∧ human_readable_size 1073741824 = "1.00 GB"
    ∧ ∀ n : Nat, ∃ k : Nat, k ≤ 5
        ∧ (∀ j, j < k → 1024 ^ (j + 1) ≤ n)
        ∧ (k < 5 → n < 1024 ^ (k + 1))
        ∧ human_readable_size n = fmt2 n (10 * k) ++ " " ++ unitName k := by
  refine ⟨by decide, by decide, by decide, fun n => ?_⟩
  have u0 : unitName 0 = "B" := by decide
  have u1 : unitName 1 = "KB" := by decide
  have u2 : unitName 2 = "MB" := by decide
  have u3 : unitName 3 = "GB" := by decide
  have u4 : unitName 4 = "TB" := by decide
  have u5 : unitName 5 = "PB" := by decide
  simp only [human_readable_size, sizeUnits, hrs_go]
  norm_num
  split_ifs with h0 h1 h2 h3 h4
  · exact ⟨0, by norm_num, fun j hj => by omega, fun _ => by norm_num <;> omega, by rw [u0]⟩
  · exact ⟨1, by norm_num, fun j hj => by interval_cases j <;> norm_num <;> omega,
      fun _ => by norm_num <;> omega, by rw [u1]⟩
  · exact ⟨2, by norm_num, fun j hj => by interval_cases j <;> norm_num <;> omega,
      fun _ => by norm_num <;> omega, by rw [u2]⟩
  · exact ⟨3, by norm_num, fun j hj => by interval_cases j <;> norm_num <;> omega,
      fun _ => by norm_num <;> omega, by rw [u3]⟩
  · exact ⟨4, by norm_num, fun j hj => by interval_cases j <;> norm_num <;> omega,
      fun _ => by norm_num <;> omega, by rw [u4]⟩
  · exact ⟨5, by norm_num, fun j hj => by interval_cases j <;> norm_num <;> omega,
      fun h5 => by omega, by rw [u5, string_append_assoc]; rfl⟩

/-- Claim C7 witness: the scaling characterization applied at the
concrete size 1536. -/
theorem C7_human_readable_witness :
    ∃ k : Nat, k ≤ 5
      ∧ (∀ j, j < k → 1024 ^ (j + 1) ≤ 1536)
      ∧ (k < 5 → 1536 < 1024 ^ (k + 1))
      ∧ human_readable_size 1536 = fmt2 1536 (10 * k) ++ " " ++ unitName k :=
  C7_human_readable.2.2.2 1536
